import Mathlib

/-!
# DevConnector REST backend: auth guard and owner-checked list mutations

A shallow embedding of `middleware/auth.js`, `routes/api/posts.js` and the
upsert / lookup handlers of `routes/api/profile.js`.

Conventions of the embedding

* Identifiers are strings, as the handlers compare them (`x.toString() === y`).
* A handler is a function on a context `Ctx` (the document store and what has
  been written to the client so far).  It returns the exception that escapes it,
  if any, and the resulting context.
* `res.status(s).json(b)` / `res.status(s).send(b)` is `send`.  Express writes
  the first response of a request; a later call raises `ERR_HTTP_HEADERS_SENT`
  and writes nothing.
* `X.findById(id)` raises a cast error of kind `ObjectId` when `id` is not in the
  identifier format of the store.  The format is a parameter `isOid`.
* Transient datastore failures are outside the model.
-/

namespace DevConnector

/-! ## Data model -/

/-- Modelled from the spec: the `Like` entry of `models/Post.js` (schema file not
in the sources), a reference to the user who liked. -/
structure Like where
  user : String
deriving DecidableEq, Repr

/-- Modelled from the spec: the `Comment` entry of `models/Post.js` (schema file
not in the sources): generated id, author id, text, name/avatar snapshot, date. -/
structure Comment where
  id : String
  user : String
  text : String
  name : String
  avatar : String
  date : Nat
deriving DecidableEq, Repr

/-- Modelled from the spec: the `Post` document of `models/Post.js` (schema file
not in the sources). -/
structure Post where
  id : String
  user : String
  text : String
  name : String
  avatar : String
  date : Nat
  likes : List Like
  comments : List Comment
deriving DecidableEq, Repr

/-- Modelled from the spec: the `User` document of `models/User.js` (schema file
not in the sources). -/
structure User where
  id : String
  name : String
  email : String
  avatar : String
  password : String
deriving DecidableEq, Repr

/-- Modelled from the spec: the `social` object of `models/Profile.js` (schema
file not in the sources). -/
structure Social where
  youtube : Option String
  twitter : Option String
  facebook : Option String
  linkedin : Option String
  instagram : Option String
deriving DecidableEq, Repr

/-- Modelled from the spec: an experience entry of `models/Profile.js`. -/
structure Experience where
  id : String
  title : String
  company : String
  location : Option String
  fromDate : String
  toDate : Option String
  current : Bool
  description : Option String
deriving DecidableEq, Repr

/-- Modelled from the spec: an education entry of `models/Profile.js`. -/
structure Education where
  id : String
  school : String
  degree : String
  fieldofstudy : Option String
  fromDate : String
  toDate : Option String
  current : Bool
  description : Option String
deriving DecidableEq, Repr

/-- Modelled from the spec: the `Profile` document of `models/Profile.js` (schema
file not in the sources). -/
structure Profile where
  id : String
  user : String
  company : Option String
  website : Option String
  location : Option String
  bio : Option String
  status : Option String
  githubusername : Option String
  skills : List String
  social : Social
  experience : List Experience
  education : List Education
deriving DecidableEq, Repr

/-- The document store: one collection per model. -/
structure Store where
  users : List User
  posts : List Post
  profiles : List Profile
deriving DecidableEq, Repr

/-! ## Responses, exceptions, handler contexts -/

/-- Response bodies the handlers produce. -/
inductive Body where
  | null
  | msg (m : String)
  | text (s : String)
  | errors (es : List String)
  | post (p : Post)
  | likes (ls : List Like)
  | comments (cs : List Comment)
  | profile (p : Profile) (populated : Option (String × String))
deriving DecidableEq, Repr

/-- An HTTP response: status code and body. -/
structure Response where
  status : Nat
  body : Body
deriving DecidableEq, Repr

/-- Exceptions that occur inside a handler. -/
inductive Exn where
  | castObjectId
  | headersSent
  | typeError
deriving DecidableEq, Repr

/-- Per-request context: the store and the responses written to the client. -/
structure Ctx where
  db : Store
  wire : List Response
deriving DecidableEq, Repr

/-- Result of a handler step: the exception raised, if any, and the context. -/
abbrev Step := Option Exn × Ctx

/-- Sequencing: run `k` unless the previous step raised. -/
def Step.andThen (s : Step) (k : Ctx → Step) : Step :=
  match s with
  | (some e, c) => (some e, c)
  | (none, c) => k c

/-- The `try { ... } catch (err) { ... }` statement. -/
def Step.catchWith (s : Step) (handler : Exn → Ctx → Step) : Step :=
  match s with
  | (some e, c) => handler e c
  | (none, c) => (none, c)

/-- The calls `res.status(status).json(body)` and `res.status(status).send(body)`. -/
def send (r : Response) (c : Ctx) : Step :=
  if c.wire = [] then (none, { c with wire := [r] }) else (some Exn.headersSent, c)

/-- What a request leaves behind. -/
structure Outcome where
  db : Store
  wire : List Response
  uncaught : Option Exn
deriving DecidableEq, Repr

/-- Run a handler on a store, with nothing written yet. -/
def run (h : Ctx → Step) (db : Store) : Outcome :=
  let s := h { db := db, wire := [] }
  { db := s.2.db, wire := s.2.wire, uncaught := s.1 }

/-! ## Store operations -/

/-- The query `Post.findById(id)`. -/
def Post.findById (isOid : String → Bool) (db : Store) (id : String) :
    Except Exn (Option Post) :=
  if isOid id then Except.ok (db.posts.find? (fun p => p.id == id))
  else Except.error Exn.castObjectId

/-- The query `User.findById(id)`. -/
def User.findById (isOid : String → Bool) (db : Store) (id : String) :
    Except Exn (Option User) :=
  if isOid id then Except.ok (db.users.find? (fun u => u.id == id))
  else Except.error Exn.castObjectId

/-- The call `post.save()` for a post that was loaded from the store. -/
def Post.save (db : Store) (p : Post) : Store :=
  { db with posts := db.posts.map (fun q => if q.id == p.id then p else q) }

/-- The call `post.remove()`. -/
def Post.remove (db : Store) (p : Post) : Store :=
  { db with posts := db.posts.filter (fun q => q.id != p.id) }

/-! ## `routes/api/posts.js` -/

def postNotFound : Response := { status := 404, body := Body.msg "Post not found" }

def serverError : Response := { status := 400, body := Body.text "server error" }

def notAuthorized : Response := { status := 400, body := Body.msg "User not authorized" }

def alreadyLiked : Response := { status := 400, body := Body.msg "Post already liked" }

def notLiked : Response := { status := 400, body := Body.msg "Post not liked" }

def postDeleted : Response := { status := 200, body := Body.msg "post deleted" }

/-- The `catch (err)` block shared by the handlers on a single post:
`if (err.kind === 'ObjectId') res.status(404).json(...)` (no `return`), then
`res.status(400).send('server error')`. -/
def postCatch (e : Exn) (c : Ctx) : Step :=
  (if e = Exn.castObjectId then send postNotFound c else (none, c)).andThen
    (send serverError)

/-- Body of the `try` of `router.get('/:post_id')`. -/
def getPostTry (isOid : String → Bool) (postId : String) (c : Ctx) : Step :=
  match Post.findById isOid c.db postId with
  | Except.error e => (some e, c)
  | Except.ok none => send postNotFound c
  | Except.ok (some post) => send { status := 200, body := Body.post post } c

/-- The handler `router.get('/:post_id')`. -/
def getPost (isOid : String → Bool) (postId : String) (c : Ctx) : Step :=
  (getPostTry isOid postId c).catchWith postCatch

/-- Body of the `try` of `router.delete('/:post_id')`. -/
def deletePostTry (isOid : String → Bool) (uid postId : String) (c : Ctx) : Step :=
  match Post.findById isOid c.db postId with
  | Except.error e => (some e, c)
  | Except.ok none => send postNotFound c
  | Except.ok (some post) =>
    (if post.user != uid then send notAuthorized c else (none, c)).andThen fun c1 =>
      send postDeleted { c1 with db := Post.remove c1.db post }

/-- The handler `router.delete('/:post_id')`. -/
def deletePost (isOid : String → Bool) (uid postId : String) (c : Ctx) : Step :=
  (deletePostTry isOid uid postId c).catchWith postCatch

/-- Body of the `try` of `router.put('/like/:post_id')`. -/
def likeTry (isOid : String → Bool) (uid postId : String) (c : Ctx) : Step :=
  match Post.findById isOid c.db postId with
  | Except.error e => (some e, c)
  | Except.ok none => send postNotFound c
  | Except.ok (some post) =>
    if (post.likes.filter (fun like => like.user == uid)).length > 0 then
      send alreadyLiked c
    else
      let post1 := { post with likes := { user := uid } :: post.likes }
      send { status := 200, body := Body.likes post1.likes }
        { c with db := Post.save c.db post1 }

/-- The handler `router.put('/like/:post_id')`. -/
def like (isOid : String → Bool) (uid postId : String) (c : Ctx) : Step :=
  (likeTry isOid uid postId c).catchWith postCatch

/-- Body of the `try` of `router.put('/unlike/:post_id')`. -/
def unlikeTry (isOid : String → Bool) (uid postId : String) (c : Ctx) : Step :=
  match Post.findById isOid c.db postId with
  | Except.error e => (some e, c)
  | Except.ok none => send postNotFound c
  | Except.ok (some post) =>
    if (post.likes.filter (fun like => like.user == uid)).length = 0 then
      send notLiked c
    else
      let post1 := { post with likes := post.likes.filter (fun like => like.user != uid) }
      send { status := 200, body := Body.likes post1.likes }
        { c with db := Post.save c.db post1 }

/-- The handler `router.put('/unlike/:post_id')`. -/
def unlike (isOid : String → Bool) (uid postId : String) (c : Ctx) : Step :=
  (unlikeTry isOid uid postId c).catchWith postCatch

/-- Body of the `try` of `router.put('/comment/:post_id')`.  `newId` and `now`
are the identifier and the date the store gives the new sub-document. -/
def addCommentTry (isOid : String → Bool) (newId : String) (now : Nat)
    (uid postId text : String) (c : Ctx) : Step :=
  match Post.findById isOid c.db postId with
  | Except.error e => (some e, c)
  | Except.ok none => send postNotFound c
  | Except.ok (some post) =>
    match User.findById isOid c.db uid with
    | Except.error e => (some e, c)
    | Except.ok none => (some Exn.typeError, c)
    | Except.ok (some user) =>
      let newCom : Comment :=
        { id := newId, user := uid, text := text, avatar := user.avatar,
          name := user.name, date := now }
      let post1 := { post with comments := newCom :: post.comments }
      send { status := 200, body := Body.comments post1.comments }
        { c with db := Post.save c.db post1 }

/-- The handler `router.put('/comment/:post_id')`: the `check('text').exists()` validation,
then the `try` / `catch`. -/
def addComment (isOid : String → Bool) (newId : String) (now : Nat)
    (uid postId : String) (text : Option String) (c : Ctx) : Step :=
  match text with
  | none => send { status := 400, body := Body.errors ["Text is required"] } c
  | some t => (addCommentTry isOid newId now uid postId t c).catchWith postCatch

/-- Body of the `try` of `router.delete('/comment/:post_id/:comment_id')`. -/
def deleteCommentTry (isOid : String → Bool) (uid postId commentId : String)
    (c : Ctx) : Step :=
  match Post.findById isOid c.db postId with
  | Except.error e => (some e, c)
  | Except.ok none => send postNotFound c
  | Except.ok (some post) =>
    match User.findById isOid c.db uid with
    | Except.error e => (some e, c)
    | Except.ok _ =>
      if post.user != uid then send notAuthorized c
      else
        let post1 :=
          { post with comments := post.comments.filter (fun cm => cm.id != commentId) }
        send { status := 200, body := Body.comments post1.comments }
          { c with db := Post.save c.db post1 }

/-- The handler `router.delete('/comment/:post_id/:comment_id')`. -/
def deleteComment (isOid : String → Bool) (uid postId commentId : String)
    (c : Ctx) : Step :=
  (deleteCommentTry isOid uid postId commentId c).catchWith postCatch

/-- Modelled from the spec: the identifier the store gives a new list entry
("generates a fresh unique entry identifier").  Neither the schema
`models/Post.js` nor the generator is in the sources.  Given the identifiers in
use on the parent list, the model returns one that none of them equals: a run
of zeros longer than every identifier in use. -/
def genEntryId (used : List String) : String :=
  String.mk (List.replicate ((used.map String.length).foldr max 0 + 1) '0')

/-- The comment request as the store serves it: the handler
`router.put('/comment/:post_id')`, the new entry receiving the identifier
generated for the comments list of the addressed post. -/
def commentRequest (isOid : String → Bool) (now : Nat) (uid postId : String)
    (text : Option String) (c : Ctx) : Step :=
  let used :=
    match Post.findById isOid c.db postId with
    | Except.ok (some post) => post.comments.map Comment.id
    | _ => []
  addComment isOid (genEntryId used) now uid postId text c

/-! ## `middleware/auth.js` -/

/-- The identity a token carries: `{ id }` (see the payload built in
`routes/api/users.js`). -/
structure Identity where
  id : String
deriving DecidableEq, Repr

/-- A decoded token payload; `user` is what `decoded.user` evaluates to. -/
structure Payload where
  user : Option Identity
deriving DecidableEq, Repr

/-- What the guard leaves behind: the response written (if any), the tokens the
verifier was called on, `req.user`, and whether `next()` was called. -/
structure AuthOutcome where
  wire : List Response
  verifierCalls : List String
  reqUser : Option Identity
  nextCalled : Bool
deriving DecidableEq, Repr

def noToken : Response := { status := 401, body := Body.msg "No token,auth denied" }

def tokenNotValid : Response := { status := 401, body := Body.msg "Token is not valid" }

/-- JavaScript `!token` for a header value: absent or the empty string. -/
def falsy (token : Option String) : Bool :=
  match token with
  | none => true
  | some s => s == ""

/-- The auth middleware.  `verify` is `jwt.verify(token, secret)`: `none` when it
throws, the decoded payload otherwise.  `header` is `req.header('x-auth-token')`. -/
def auth (verify : String → Option Payload) (header : Option String) : AuthOutcome :=
  if falsy header then
    { wire := [noToken], verifierCalls := [], reqUser := none, nextCalled := false }
  else
    let token := header.getD ""
    match verify token with
    | some decoded =>
      { wire := [], verifierCalls := [token], reqUser := decoded.user, nextCalled := true }
    | none =>
      { wire := [tokenNotValid], verifierCalls := [token], reqUser := none,
        nextCalled := false }

/-! ## `routes/api/profile.js` -/

/-- The fields `router.post('/')` reads from `req.body`. -/
structure ProfileBody where
  company : Option String
  location : Option String
  website : Option String
  bio : Option String
  skills : Option String
  status : Option String
  githubusername : Option String
  youtube : Option String
  twitter : Option String
  instagram : Option String
  linkedin : Option String
  facebook : Option String
deriving DecidableEq, Repr

/-- JavaScript truthiness of a string-valued body field: present and non-empty. -/
def truthy (v : Option String) : Bool :=
  match v with
  | none => false
  | some s => s != ""

/-- The characters `String.prototype.trim` removes (WhiteSpace and
LineTerminator of ECMAScript). -/
def isJsSpace (ch : Char) : Bool :=
  let n := ch.toNat
  n == 9 || n == 10 || n == 11 || n == 12 || n == 13 || n == 32 || n == 160 ||
  n == 5760 || (8192 ≤ n && n ≤ 8202) || n == 8232 || n == 8233 || n == 8239 ||
  n == 8287 || n == 12288 || n == 65279

/-- The method `s.trim()` on the characters of `s`. -/
def jsTrim (cs : List Char) : List Char :=
  ((cs.dropWhile isJsSpace).reverse.dropWhile isJsSpace).reverse

/-- The method `s.split(',')` on the characters of `s`. -/
def splitComma : List Char → List (List Char)
  | [] => [[]]
  | ch :: cs =>
    if ch = ',' then [] :: splitComma cs
    else
      match splitComma cs with
      | [] => [[ch]]
      | piece :: rest => (ch :: piece) :: rest

/-- The expression `skills.split(',').map((skill) => skill.trim())`. -/
def parseSkills (skills : String) : List String :=
  (splitComma skills.data).map (fun piece => String.mk (jsTrim piece))

/-- The `profileFields` object: an absent key is `none`; `social` is always set. -/
structure ProfileFields where
  user : String
  company : Option String
  website : Option String
  location : Option String
  bio : Option String
  status : Option String
  githubusername : Option String
  skills : Option (List String)
  social : Social
deriving DecidableEq, Repr

/-- The statement `if (v) target = v`: the key is set only for a truthy value. -/
def pick (v : Option String) : Option String :=
  if truthy v then v else none

/-- Construction of `profileFields` from the request. -/
def buildProfileFields (uid : String) (b : ProfileBody) : ProfileFields :=
  { user := uid
    company := pick b.company
    website := pick b.website
    location := pick b.location
    bio := pick b.bio
    status := pick b.status
    githubusername := pick b.githubusername
    skills := if truthy b.skills then some (parseSkills (b.skills.getD "")) else none
    social :=
      { youtube := pick b.youtube
        twitter := pick b.twitter
        facebook := pick b.facebook
        linkedin := pick b.linkedin
        instagram := pick b.instagram } }

/-- The operator `$set` on one key: the stored value is replaced when the key is present. -/
def setKey (stored supplied : Option String) : Option String :=
  match supplied with
  | some v => some v
  | none => stored

/-- The update `{ $set: profileFields }` on a stored profile: every key of
`profileFields` replaces the stored value of that key. -/
def applySet (p : Profile) (f : ProfileFields) : Profile :=
  { p with
    user := f.user
    company := setKey p.company f.company
    website := setKey p.website f.website
    location := setKey p.location f.location
    bio := setKey p.bio f.bio
    status := setKey p.status f.status
    githubusername := setKey p.githubusername f.githubusername
    skills := match f.skills with
      | some l => l
      | none => p.skills
    social := f.social }

/-- The document `new Profile(profileFields)`, with the identifier the store generates. -/
def newProfile (newId : String) (f : ProfileFields) : Profile :=
  { id := newId
    user := f.user
    company := f.company
    website := f.website
    location := f.location
    bio := f.bio
    status := f.status
    githubusername := f.githubusername
    skills := f.skills.getD []
    social := f.social
    experience := []
    education := [] }

/-- The query `Profile.findOne({ user: id })`. -/
def Profile.findOne (isOid : String → Bool) (db : Store) (userId : String) :
    Except Exn (Option Profile) :=
  if isOid userId then Except.ok (db.profiles.find? (fun p => p.user == userId))
  else Except.error Exn.castObjectId

/-- First-match update of a list. -/
def updateFirst (f : Profile → Profile) (sel : Profile → Bool) :
    List Profile → List Profile
  | [] => []
  | p :: ps => if sel p then f p :: ps else p :: updateFirst f sel ps

/-- The call `Profile.findOneAndUpdate({ user }, { $set: profileFields }, { new: true })`:
the store after the update and the updated document (`null` without a match). -/
def Profile.findOneAndUpdate (db : Store) (userId : String) (f : ProfileFields) :
    Store × Option Profile :=
  ({ db with
      profiles :=
        updateFirst (fun p => applySet p f) (fun p => p.user == userId) db.profiles },
   (db.profiles.find? (fun p => p.user == userId)).map (fun p => applySet p f))

/-- Body of the `try` of `router.post('/')`. -/
def upsertProfileTry (isOid : String → Bool) (newId uid : String)
    (profileFields : ProfileFields) (c : Ctx) : Step :=
  match Profile.findOne isOid c.db uid with
  | Except.error e => (some e, c)
  | Except.ok (some _) =>
    let updated := Profile.findOneAndUpdate c.db uid profileFields
    match updated.2 with
    | some profile =>
      send { status := 200, body := Body.profile profile none } { c with db := updated.1 }
    | none => send { status := 200, body := Body.null } { c with db := updated.1 }
  | Except.ok none =>
    let profile := newProfile newId profileFields
    send { status := 200, body := Body.profile profile none }
      { c with db := { c.db with profiles := c.db.profiles ++ [profile] } }

/-- The handler `router.post('/')` of the profile routes: the two `exists()` validations,
the construction of `profileFields`, then the `try` / `catch`. -/
def upsertProfile (isOid : String → Bool) (newId uid : String) (b : ProfileBody)
    (c : Ctx) : Step :=
  let errs :=
    (if b.status.isNone then ["Status is required"] else []) ++
    (if b.skills.isNone then ["Skills are required"] else [])
  if errs ≠ [] then send { status := 400, body := Body.errors errs } c
  else
    (upsertProfileTry isOid newId uid (buildProfileFields uid b) c).catchWith
      fun _ c1 => send { status := 500, body := Body.text "server error" } c1

def profileNotFound : Response := { status := 400, body := Body.msg "Profile not found" }

/-- The step `.populate('user', ['name', 'avatar'])`. -/
def populateUser (db : Store) (p : Profile) : Option (String × String) :=
  (db.users.find? (fun u => u.id == p.user)).map (fun u => (u.name, u.avatar))

/-- Body of the `try` of `router.get('/user/:user_id')`. -/
def getProfileByUserTry (isOid : String → Bool) (userId : String) (c : Ctx) : Step :=
  match Profile.findOne isOid c.db userId with
  | Except.error e => (some e, c)
  | Except.ok none => send profileNotFound c
  | Except.ok (some profile) =>
    send { status := 200, body := Body.profile profile (populateUser c.db profile) } c

/-- The handler `router.get('/user/:user_id')`; its `catch` returns after the not-found
response. -/
def getProfileByUser (isOid : String → Bool) (userId : String) (c : Ctx) : Step :=
  (getProfileByUserTry isOid userId c).catchWith fun e c1 =>
    if e = Exn.castObjectId then send profileNotFound c1
    else send { status := 400, body := Body.text "Server error" } c1

/-! ## Readings of the skills clause -/

/-- Reading of "comma-separated pieces": the pieces, joined by commas, give the
string back, and no piece contains a comma. -/
def IsCommaSplit (pieces : List (List Char)) (cs : List Char) : Prop :=
  pieces ≠ [] ∧ List.intercalate [','] pieces = cs ∧ ∀ piece ∈ pieces, ',' ∉ piece

/-- Reading of "trimmed of surrounding whitespace": `t` is `cs` without a leading
and a trailing run of whitespace, and `t` neither starts nor ends with whitespace. -/
def IsTrimOf (t cs : List Char) : Prop :=
  ∃ pre post, cs = pre ++ t ++ post ∧
    (∀ ch ∈ pre, isJsSpace ch = true) ∧ (∀ ch ∈ post, isJsSpace ch = true) ∧
    (∀ ch, t.head? = some ch → isJsSpace ch = false) ∧
    (∀ ch, t.getLast? = some ch → isJsSpace ch = false)

/-! ## Sample data -/

/-- An instance of the identifier format: 24 hexadecimal digits. -/
def hex24 (s : String) : Bool :=
  s.data.length == 24 &&
  s.data.all fun ch =>
    let n := ch.toNat
    (48 ≤ n && n ≤ 57) || (97 ≤ n && n ≤ 102) || (65 ≤ n && n ≤ 70)

def aliceId : String := "64b000000000000000000001"

def bobId : String := "64b000000000000000000002"

def postId1 : String := "64b0000000000000000000a1"

def alice : User :=
  { id := aliceId, name := "Alice", email := "a@x.com", avatar := "a.png", password := "h1" }

def bob : User :=
  { id := bobId, name := "Bob", email := "b@x.com", avatar := "b.png", password := "h2" }

/-- A post of Alice, liked by Bob, with one comment by Bob. -/
def alicePost : Post :=
  { id := postId1, user := aliceId, text := "hi", name := "Alice", avatar := "a.png",
    date := 1, likes := [{ user := bobId }],
    comments :=
      [{ id := "64b0000000000000000000c1", user := bobId, text := "yo", name := "Bob",
         avatar := "b.png", date := 2 }] }

def sampleStore : Store := { users := [alice, bob], posts := [alicePost], profiles := [] }

/-- The same post before Bob liked it. -/
def alicePostUnliked : Post := { alicePost with likes := [] }

def unlikedStore : Store := { sampleStore with posts := [alicePostUnliked] }

def commentId1 : String := "64b0000000000000000000c1"

def commentId2 : String := "64b0000000000000000000c2"

/-- Alice's stored profile: a company and a twitter link are on record. -/
def aliceProfile : Profile :=
  { id := "64b0000000000000000000f1", user := aliceId, company := some "Acme",
    website := none, location := none, bio := none, status := some "dev",
    githubusername := none, skills := ["a"],
    social :=
      { youtube := none, twitter := some "tw", facebook := none, linkedin := none,
        instagram := none },
    experience := [], education := [] }

def profileStore : Store := { users := [alice, bob], posts := [], profiles := [aliceProfile] }

/-- An update request that supplies status, skills and a youtube link only. -/
def youtubeOnlyBody : ProfileBody :=
  { company := none, location := none, website := none, bio := none,
    skills := some "x, y", status := some "senior", githubusername := none,
    youtube := some "yt", twitter := none, instagram := none, linkedin := none,
    facebook := none }

/-- The id of an account that has been deleted: no user record carries it. -/
def carolId : String := "64b000000000000000000003"

/-- A verifier that accepts exactly the token `good`, carrying Alice's identity. -/
def sampleVerify (token : String) : Option Payload :=
  if token = "good" then some { user := some { id := aliceId } } else none

/-! # Verification -/

/-! ## Store lemmas -/

theorem find_id_eq {l : List Post} {pid : String} {p : Post}
    (h : l.find? (fun q => q.id == pid) = some p) : p.id = pid := by
  have := List.find?_some h
  simpa using this

theorem find_replace (l : List Post) (pid : String) (p p1 : Post) (hid : p1.id = pid)
    (h : l.find? (fun q => q.id == pid) = some p) :
    (l.map (fun q => if q.id == p1.id then p1 else q)).find? (fun q => q.id == pid)
      = some p1 := by
  induction l with
  | nil => simp at h
  | cons a t ih =>
    by_cases ha : a.id = pid
    · simp [List.find?_cons, ha, hid]
    · have h2 : t.find? (fun q => q.id == pid) = some p := by
        simpa [List.find?_cons, ha] using h
      have hne : (a.id == p1.id) = false := by simp [hid, ha]
      have hne2 : (a.id == pid) = false := by simp [ha]
      rw [List.map_cons]
      simp only [hne, Bool.false_eq_true, if_false]
      rw [List.find?_cons]
      simp only [hne2]
      exact ih h2

theorem findById_inv {isOid : String → Bool} {db : Store} {pid : String} {p : Post}
    (h : Post.findById isOid db pid = Except.ok (some p)) :
    isOid pid = true ∧ db.posts.find? (fun q => q.id == pid) = some p ∧ p.id = pid := by
  unfold Post.findById at h
  by_cases ho : isOid pid = true
  · simp [ho] at h
    exact ⟨ho, h, find_id_eq h⟩
  · simp [ho] at h

theorem findById_save {isOid : String → Bool} {db : Store} {pid : String} (p p1 : Post)
    (hid : p1.id = p.id)
    (h : Post.findById isOid db pid = Except.ok (some p)) :
    Post.findById isOid (Post.save db p1) pid = Except.ok (some p1) := by
  obtain ⟨ho, hf, hp⟩ := findById_inv h
  simp only [Post.findById, ho, if_true, Post.save]
  rw [find_replace db.posts pid p p1 (hid.trans hp) hf]

/-! ## Characterisation of `like` and `unlike` -/

theorem like_of_absent {isOid : String → Bool} {db : Store} {uid pid : String}
    (h : Post.findById isOid db pid = Except.ok none) :
    run (like isOid uid pid) db = { db := db, wire := [postNotFound], uncaught := none } := by
  simp [run, like, likeTry, h, Step.catchWith, send]

theorem like_of_error {isOid : String → Bool} {db : Store} {pid : String} {e : Exn}
    (uid : String) (h : Post.findById isOid db pid = Except.error e) :
    (run (like isOid uid pid) db).db = db ∧
      ∃ r, (run (like isOid uid pid) db).wire = [r] ∧ r.status ≠ 200 := by
  cases e <;>
    simp [run, like, likeTry, h, Step.catchWith, Step.andThen, postCatch, send,
      postNotFound, serverError]

theorem like_of_liked {isOid : String → Bool} {db : Store} {uid pid : String} {p : Post}
    (h : Post.findById isOid db pid = Except.ok (some p))
    (hl : p.likes.filter (fun l => l.user == uid) ≠ []) :
    run (like isOid uid pid) db = { db := db, wire := [alreadyLiked], uncaught := none } := by
  have hpos : 0 < (p.likes.filter (fun l => l.user == uid)).length :=
    List.length_pos.mpr hl
  simp [run, like, likeTry, h, Step.catchWith, send, hpos]

theorem like_of_fresh {isOid : String → Bool} {db : Store} {uid pid : String} {p : Post}
    (h : Post.findById isOid db pid = Except.ok (some p))
    (hl : p.likes.filter (fun l => l.user == uid) = []) :
    run (like isOid uid pid) db =
      { db := Post.save db { p with likes := { user := uid } :: p.likes }
        wire := [{ status := 200, body := Body.likes ({ user := uid } :: p.likes) }]
        uncaught := none } := by
  simp [run, like, likeTry, h, Step.catchWith, send, hl]

theorem unlike_of_absent {isOid : String → Bool} {db : Store} {uid pid : String}
    (h : Post.findById isOid db pid = Except.ok none) :
    run (unlike isOid uid pid) db = { db := db, wire := [postNotFound], uncaught := none } := by
  simp [run, unlike, unlikeTry, h, Step.catchWith, send]

theorem unlike_of_error {isOid : String → Bool} {db : Store} {uid pid : String} {e : Exn}
    (h : Post.findById isOid db pid = Except.error e) :
    (run (unlike isOid uid pid) db).db = db := by
  cases e <;>
    simp [run, unlike, unlikeTry, h, Step.catchWith, Step.andThen, postCatch, send]

theorem unlike_of_unliked {isOid : String → Bool} {db : Store} {uid pid : String} {p : Post}
    (h : Post.findById isOid db pid = Except.ok (some p))
    (hl : p.likes.filter (fun l => l.user == uid) = []) :
    run (unlike isOid uid pid) db = { db := db, wire := [notLiked], uncaught := none } := by
  simp [run, unlike, unlikeTry, h, Step.catchWith, send, hl]

theorem unlike_of_liked {isOid : String → Bool} {db : Store} {uid pid : String} {p : Post}
    (h : Post.findById isOid db pid = Except.ok (some p))
    (hl : p.likes.filter (fun l => l.user == uid) ≠ []) :
    run (unlike isOid uid pid) db =
      { db := Post.save db { p with likes := p.likes.filter (fun l => l.user != uid) }
        wire := [{ status := 200
                   body := Body.likes (p.likes.filter (fun l => l.user != uid)) }]
        uncaught := none } := by
  have hlen : ¬ (p.likes.filter (fun l => l.user == uid)).length = 0 := by
    simpa using hl
  simp only [run, unlike, unlikeTry, h, Step.catchWith, send, hlen, if_false, if_true]

/-! ## Likes -/

/-- C2: after a successful like (response 200 with the likes list), a second like
of the same post by the same user is answered 400 'Post already liked', writes
nothing to the store, and the stored likes are those the first call returned. -/
theorem like_twice_rejected (isOid : String → Bool) (db : Store) (uid pid : String)
    (ls : List Like)
    (h1 : (run (like isOid uid pid) db).wire = [{ status := 200, body := Body.likes ls }]) :
    run (like isOid uid pid) (run (like isOid uid pid) db).db =
        { db := (run (like isOid uid pid) db).db, wire := [alreadyLiked], uncaught := none } ∧
      ∃ p1, Post.findById isOid (run (like isOid uid pid) db).db pid = Except.ok (some p1) ∧
        p1.likes = ls := by
  rcases hf : Post.findById isOid db pid with e | _ | p
  · obtain ⟨_, r, hw, hs⟩ := like_of_error uid hf
    rw [hw] at h1
    simp only [List.cons.injEq, and_true] at h1
    exact absurd (by rw [h1]) hs
  · rw [like_of_absent hf] at h1
    simp [postNotFound] at h1
  · by_cases hl : p.likes.filter (fun l => l.user == uid) = []
    · rw [like_of_fresh hf hl] at h1 ⊢
      simp only [List.cons.injEq, and_true, Response.mk.injEq, Body.likes.injEq, true_and] at h1
      have hf1 := findById_save p { p with likes := { user := uid } :: p.likes } rfl hf
      refine ⟨?_, _, hf1, h1⟩
      exact like_of_liked hf1 (by simp)
    · rw [like_of_liked hf hl] at h1
      simp [alreadyLiked] at h1

/-- C4: when no entry of the post's likes carries the caller's id, unlike answers
400 'Post not liked' and leaves the store as it was. -/
theorem unlike_absent_rejected (isOid : String → Bool) (db : Store) (uid pid : String)
    (p : Post) (hp : Post.findById isOid db pid = Except.ok (some p))
    (hno : ∀ l ∈ p.likes, l.user ≠ uid) :
    run (unlike isOid uid pid) db = { db := db, wire := [notLiked], uncaught := none } := by
  apply unlike_of_unliked hp
  simpa [List.filter_eq_nil_iff] using hno

theorem save_forall {P : Post → Prop} {db : Store} {p1 : Post}
    (hall : ∀ q ∈ db.posts, P q) (h1 : P p1) : ∀ q ∈ (Post.save db p1).posts, P q := by
  intro q hq
  simp only [Post.save, List.mem_map] at hq
  obtain ⟨q0, hq0, rfl⟩ := hq
  split
  · exact h1
  · exact hall q0 hq0

theorem findById_mem {isOid : String → Bool} {db : Store} {pid : String} {p : Post}
    (h : Post.findById isOid db pid = Except.ok (some p)) : p ∈ db.posts :=
  List.mem_of_find?_eq_some (findById_inv h).2.1

theorem filter_ne_of_filter_eq_nil {ls : List Like} {uid : String}
    (h : ls.filter (fun l => l.user == uid) = []) :
    ls.filter (fun l => l.user != uid) = ls := by
  rw [List.filter_eq_self]
  intro l hl
  have := (List.filter_eq_nil_iff.mp h) l hl
  simpa using this

theorem nodup_after_like {ls : List Like} {uid : String}
    (hl : ls.filter (fun l => l.user == uid) = []) (hn : (ls.map Like.user).Nodup) :
    ((({ user := uid } : Like) :: ls).map Like.user).Nodup := by
  have hnot : uid ∉ ls.map Like.user := by
    intro hmem
    obtain ⟨l, hlm, hlu⟩ := List.mem_map.mp hmem
    have := (List.filter_eq_nil_iff.mp hl) l hlm
    simp [hlu] at this
  exact List.nodup_cons.mpr ⟨hnot, hn⟩

theorem nodup_after_unlike {ls : List Like} (uid : String)
    (hn : (ls.map Like.user).Nodup) :
    ((ls.filter (fun l => l.user != uid)).map Like.user).Nodup :=
  hn.sublist ((List.filter_sublist _).map Like.user)

/-- C3 (amended): when the like succeeds (response 200, so the user had not liked
the post), like followed by unlike gives the post back with the likes it had
before the like, same entries in the same order. -/
theorem like_unlike_roundtrip (isOid : String → Bool) (db : Store) (uid pid : String)
    (p : Post) (ls : List Like)
    (hp : Post.findById isOid db pid = Except.ok (some p))
    (h1 : (run (like isOid uid pid) db).wire = [{ status := 200, body := Body.likes ls }]) :
    (run (unlike isOid uid pid) (run (like isOid uid pid) db).db).wire =
        [{ status := 200, body := Body.likes p.likes }] ∧
      Post.findById isOid (run (unlike isOid uid pid) (run (like isOid uid pid) db).db).db pid
        = Except.ok (some p) := by
  by_cases hl : p.likes.filter (fun l => l.user == uid) = []
  · rw [like_of_fresh hp hl]
    have hf1 := findById_save p { p with likes := { user := uid } :: p.likes } rfl hp
    have hne : ({ p with likes := { user := uid } :: p.likes } : Post).likes.filter
        (fun l => l.user == uid) ≠ [] := by simp
    rw [unlike_of_liked hf1 hne]
    have hlikes : ({ p with likes := { user := uid } :: p.likes } : Post).likes.filter
        (fun l => l.user != uid) = p.likes := by
      simp [filter_ne_of_filter_eq_nil hl]
    simp only [hlikes]
    exact ⟨trivial, findById_save { p with likes := { user := uid } :: p.likes } p rfl hf1⟩
  · rw [like_of_liked hp hl] at h1
    simp [alreadyLiked] at h1

/-- Store-wide form of the likes invariant: if every stored post has likes
without a repeated user id, so has every stored post after any like or unlike
request, whatever its outcome. -/
theorem store_likes_nodup (isOid : String → Bool) (db : Store) (uid pid : String)
    (hinv : ∀ q ∈ db.posts, (q.likes.map Like.user).Nodup) :
    (∀ q ∈ (run (like isOid uid pid) db).db.posts, (q.likes.map Like.user).Nodup) ∧
      (∀ q ∈ (run (unlike isOid uid pid) db).db.posts, (q.likes.map Like.user).Nodup) := by
  rcases hf : Post.findById isOid db pid with e | _ | p
  · rw [(like_of_error uid hf).1, unlike_of_error hf]
    exact ⟨hinv, hinv⟩
  · rw [like_of_absent hf, unlike_of_absent hf]
    exact ⟨hinv, hinv⟩
  · have hpn := hinv p (findById_mem hf)
    by_cases hl : p.likes.filter (fun l => l.user == uid) = []
    · rw [like_of_fresh hf hl, unlike_of_unliked hf hl]
      exact ⟨save_forall hinv (nodup_after_like hl hpn), hinv⟩
    · rw [like_of_liked hf hl, unlike_of_liked hf hl]
      exact ⟨hinv, save_forall hinv (nodup_after_unlike uid hpn)⟩

/-- C6: if the likes of a post hold each user id at most once, then after a like
and after an unlike of that post by any user, accepted or rejected, the post is
still stored and its likes again hold each user id at most once. -/
theorem likes_nodup_preserved (isOid : String → Bool) (db : Store) (uid pid : String)
    (p : Post) (hp : Post.findById isOid db pid = Except.ok (some p))
    (hn : (p.likes.map Like.user).Nodup) :
    (∃ p1, Post.findById isOid (run (like isOid uid pid) db).db pid = Except.ok (some p1) ∧
        (p1.likes.map Like.user).Nodup) ∧
      (∃ p2, Post.findById isOid (run (unlike isOid uid pid) db).db pid
          = Except.ok (some p2) ∧ (p2.likes.map Like.user).Nodup) := by
  by_cases hl : p.likes.filter (fun l => l.user == uid) = []
  · rw [like_of_fresh hp hl, unlike_of_unliked hp hl]
    exact ⟨⟨_, findById_save p { p with likes := { user := uid } :: p.likes } rfl hp,
      nodup_after_like hl hn⟩, ⟨p, hp, hn⟩⟩
  · rw [like_of_liked hp hl, unlike_of_liked hp hl]
    exact ⟨⟨p, hp, hn⟩,
      ⟨_, findById_save p { p with likes := p.likes.filter (fun l => l.user != uid) } rfl hp,
        nodup_after_unlike uid hn⟩⟩

/-! ## Comments -/

/-- C7: for a post owned by the caller and a comment id that matches no comment
of the post, deleting the comment answers 200 with the original comments list
and the stored post is the one that was there. -/
theorem deleteComment_unknown_id_noop (isOid : String → Bool) (db : Store)
    (uid pid cid : String) (p : Post)
    (hp : Post.findById isOid db pid = Except.ok (some p))
    (hu : isOid uid = true) (hown : p.user = uid)
    (hc : ∀ cm ∈ p.comments, cm.id ≠ cid) :
    (run (deleteComment isOid uid pid cid) db).wire =
        [{ status := 200, body := Body.comments p.comments }] ∧
      (run (deleteComment isOid uid pid cid) db).uncaught = none ∧
      Post.findById isOid (run (deleteComment isOid uid pid cid) db).db pid
        = Except.ok (some p) := by
  have hfil : p.comments.filter (fun cm => cm.id != cid) = p.comments := by
    rw [List.filter_eq_self]
    intro cm hcm
    simpa using hc cm hcm
  have hsave := findById_save p p rfl hp
  subst hown
  simp [run, deleteComment, deleteCommentTry, hp, User.findById, hu,
    Step.catchWith, send, hfil, hsave]

theorem length_le_foldr_max (used : List String) :
    ∀ s ∈ used, s.length ≤ (used.map String.length).foldr max 0 := by
  induction used with
  | nil => simp
  | cons a t ih =>
    intro s hs
    simp only [List.map_cons, List.foldr_cons]
    rcases List.mem_cons.mp hs with h | h
    · subst h
      exact le_max_left _ _
    · exact le_trans (ih s h) (le_max_right _ _)

theorem genEntryId_fresh (used : List String) : genEntryId used ∉ used := by
  intro hmem
  have hle := length_le_foldr_max used _ hmem
  have hlen : (genEntryId used).length = (used.map String.length).foldr max 0 + 1 := by
    simp [genEntryId, String.length]
  omega

/-- C8 (amended): on an existing post, for an authenticated caller whose user
record is stored (owner or not) and a request with a text, the whole outcome is:
the post is saved with the new comment at index 0 (caller id, text, the caller's
stored name and avatar, the generated id) followed by the previous comments in
their order, the response is 200 with that list, nothing escapes, and the new
comment's id differs from the id of every previous comment. -/
theorem addComment_prepends (isOid : String → Bool) (now : Nat)
    (db : Store) (uid pid text : String) (p : Post) (u : User)
    (hp : Post.findById isOid db pid = Except.ok (some p))
    (hu : User.findById isOid db uid = Except.ok (some u)) :
    ∃ p1 nc,
      run (commentRequest isOid now uid pid (some text)) db =
        { db := Post.save db p1
          wire := [{ status := 200, body := Body.comments p1.comments }]
          uncaught := none } ∧
      Post.findById isOid (run (commentRequest isOid now uid pid (some text)) db).db pid
        = Except.ok (some p1) ∧
      nc = { id := genEntryId (p.comments.map Comment.id), user := uid, text := text,
             name := u.name, avatar := u.avatar, date := now } ∧
      p1 = { p with comments := nc :: p.comments } ∧
      p1.comments[0]? = some nc ∧
      (∀ cm ∈ p.comments, nc.id ≠ cm.id) := by
  have hsave := findById_save p
    { p with comments :=
        { id := genEntryId (p.comments.map Comment.id), user := uid, text := text,
          name := u.name, avatar := u.avatar, date := now } :: p.comments } rfl hp
  refine ⟨{ p with comments :=
      { id := genEntryId (p.comments.map Comment.id), user := uid, text := text,
        name := u.name, avatar := u.avatar, date := now } :: p.comments }, _,
    ?_, ?_, rfl, rfl, ?_, ?_⟩
  · simp [run, commentRequest, addComment, addCommentTry, hp, hu, Step.catchWith, send]
  · simpa [run, commentRequest, addComment, addCommentTry, hp, hu, Step.catchWith, send]
      using hsave
  · simp
  · intro cm hcm h
    apply genEntryId_fresh (p.comments.map Comment.id)
    simp only at h
    rw [h]
    exact List.mem_map_of_mem Comment.id hcm

/-! ## Lookups by identifier -/

/-- C9 (amended): for the six handlers that look a post up by id, a malformed id
and the id of no stored post both write the single response 404 'Post not found'
and leave the store as it was; for the profile lookup by user id, a malformed id
and an id without a profile both give exactly 400 'Profile not found'. -/
theorem lookup_failure_responses (isOid : String → Bool) (db : Store)
    (uid pid cid newId text userId : String) (now : Nat)
    (hpost : isOid pid = false ∨ Post.findById isOid db pid = Except.ok none)
    (hprof : isOid userId = false ∨ Profile.findOne isOid db userId = Except.ok none) :
    ((run (getPost isOid pid) db).wire = [postNotFound] ∧
      (run (getPost isOid pid) db).db = db) ∧
    ((run (deletePost isOid uid pid) db).wire = [postNotFound] ∧
      (run (deletePost isOid uid pid) db).db = db) ∧
    ((run (like isOid uid pid) db).wire = [postNotFound] ∧
      (run (like isOid uid pid) db).db = db) ∧
    ((run (unlike isOid uid pid) db).wire = [postNotFound] ∧
      (run (unlike isOid uid pid) db).db = db) ∧
    ((run (addComment isOid newId now uid pid (some text)) db).wire = [postNotFound] ∧
      (run (addComment isOid newId now uid pid (some text)) db).db = db) ∧
    ((run (deleteComment isOid uid pid cid) db).wire = [postNotFound] ∧
      (run (deleteComment isOid uid pid cid) db).db = db) ∧
    run (getProfileByUser isOid userId) db =
      { db := db, wire := [profileNotFound], uncaught := none } := by
  have hP : Post.findById isOid db pid = Except.error Exn.castObjectId ∨
      Post.findById isOid db pid = Except.ok none := by
    rcases hpost with h | h
    · left; simp [Post.findById, h]
    · right; exact h
  have hQ : Profile.findOne isOid db userId = Except.error Exn.castObjectId ∨
      Profile.findOne isOid db userId = Except.ok none := by
    rcases hprof with h | h
    · left; simp [Profile.findOne, h]
    · right; exact h
  refine ⟨?_, ?_, ?_, ?_, ?_, ?_, ?_⟩
  · rcases hP with h | h <;>
      simp [run, getPost, getPostTry, h, postCatch, Step.catchWith, Step.andThen, send]
  · rcases hP with h | h <;>
      simp [run, deletePost, deletePostTry, h, postCatch, Step.catchWith, Step.andThen, send]
  · rcases hP with h | h <;>
      simp [run, like, likeTry, h, postCatch, Step.catchWith, Step.andThen, send]
  · rcases hP with h | h <;>
      simp [run, unlike, unlikeTry, h, postCatch, Step.catchWith, Step.andThen, send]
  · rcases hP with h | h <;>
      simp [run, addComment, addCommentTry, h, postCatch, Step.catchWith, Step.andThen, send]
  · rcases hP with h | h <;>
      simp [run, deleteComment, deleteCommentTry, h, postCatch, Step.catchWith,
        Step.andThen, send]
  · rcases hQ with h | h <;>
      simp [run, getProfileByUser, getProfileByUserTry, h, Step.catchWith, send]

/-! ## Auth guard -/

/-- C5 (amended): the outcome of the guard as a function of the request.  A
header with a non-empty value whose token verifies: the next stage is called,
`req.user` is the identity of the decoded payload, nothing is written.  A header
with a non-empty value whose token does not verify: 401 'Token is not valid',
next stage not called.  No header, or a header with an empty value: 401
'No token,auth denied', neither the verifier nor the next stage is called.  So
the next stage is called exactly when the header has a non-empty value and its
token verifies. -/
theorem auth_guard (verify : String → Option Payload) (header : Option String) :
    (∀ t d, header = some t → t ≠ "" → verify t = some d →
      auth verify header =
        { wire := [], verifierCalls := [t], reqUser := d.user, nextCalled := true }) ∧
    (∀ t, header = some t → t ≠ "" → verify t = none →
      auth verify header =
        { wire := [tokenNotValid], verifierCalls := [t], reqUser := none,
          nextCalled := false }) ∧
    (header = none ∨ header = some "" →
      auth verify header =
        { wire := [noToken], verifierCalls := [], reqUser := none, nextCalled := false }) ∧
    ((auth verify header).nextCalled = true ↔
      ∃ t d, header = some t ∧ t ≠ "" ∧ verify t = some d) := by
  refine ⟨?_, ?_, ?_, ?_⟩
  · rintro t d rfl ht hv
    simp [auth, falsy, ht, hv]
  · rintro t rfl ht hv
    simp [auth, falsy, ht, hv]
  · rintro (rfl | rfl) <;> simp [auth, falsy]
  · cases header with
    | none => simp [auth, falsy]
    | some t0 =>
      by_cases h0 : t0 = ""
      · subst h0
        simp [auth, falsy]
      · cases hv : verify t0 with
        | none => simp [auth, falsy, h0, hv]
        | some d0 => simp [auth, falsy, h0, hv]

/-! ## Profile upsert -/

theorem splitComma_ne_nil (cs : List Char) : splitComma cs ≠ [] := by
  cases cs with
  | nil => simp [splitComma]
  | cons ch cs =>
    unfold splitComma
    split
    · simp
    · split <;> simp

theorem splitComma_isCommaSplit (cs : List Char) : IsCommaSplit (splitComma cs) cs := by
  refine ⟨splitComma_ne_nil cs, ?_, ?_⟩
  · induction cs with
    | nil => simp [splitComma, List.intercalate]
    | cons ch cs ih =>
      unfold splitComma
      by_cases hc : ch = ','
      · simp only [hc, if_true]
        rcases hs : splitComma cs with _ | ⟨x, xs⟩
        · exact absurd hs (splitComma_ne_nil cs)
        · rw [hs] at ih
          rw [← ih]
          simp [List.intercalate, List.intersperse]
      · simp only [hc, if_false]
        rcases hs : splitComma cs with _ | ⟨x, xs⟩
        · exact absurd hs (splitComma_ne_nil cs)
        · rw [hs] at ih
          rw [← ih]
          cases xs <;> simp [List.intercalate, List.intersperse]
  · induction cs with
    | nil => simp [splitComma]
    | cons ch cs ih =>
      unfold splitComma
      by_cases hc : ch = ','
      · simp only [hc, if_true]
        intro piece hp
        rcases List.mem_cons.mp hp with h | h
        · simp [h]
        · exact ih piece h
      · simp only [hc, if_false]
        rcases hs : splitComma cs with _ | ⟨x, xs⟩
        · exact absurd hs (splitComma_ne_nil cs)
        · rw [hs] at ih
          intro piece hp
          rcases List.mem_cons.mp hp with h | h
          · subst h
            have hx := ih x (List.mem_cons_self _ _)
            intro hmem
            rcases List.mem_cons.mp hmem with h1 | h1
            · exact hc h1.symm
            · exact hx h1
          · exact ih piece (List.mem_cons_of_mem _ h)

theorem jsTrim_isTrimOf (cs : List Char) : IsTrimOf (jsTrim cs) cs := by
  refine ⟨cs.takeWhile isJsSpace,
    (((cs.dropWhile isJsSpace).reverse).takeWhile isJsSpace).reverse, ?_, ?_, ?_, ?_, ?_⟩
  · have h1 : ((cs.dropWhile isJsSpace).reverse.dropWhile isJsSpace).reverse ++
        ((cs.dropWhile isJsSpace).reverse.takeWhile isJsSpace).reverse
        = cs.dropWhile isJsSpace := by
      rw [← List.reverse_append, List.takeWhile_append_dropWhile, List.reverse_reverse]
    unfold jsTrim
    rw [List.append_assoc, h1, List.takeWhile_append_dropWhile]
  · intro ch hch
    exact (List.mem_takeWhile_imp hch)
  · intro ch hch
    exact List.mem_takeWhile_imp (List.mem_reverse.mp hch)
  · intro ch hch
    have hd : (cs.dropWhile isJsSpace).head? = some ch := by
      have h1 : ((cs.dropWhile isJsSpace).reverse.dropWhile isJsSpace).reverse ++
          ((cs.dropWhile isJsSpace).reverse.takeWhile isJsSpace).reverse
          = cs.dropWhile isJsSpace := by
        rw [← List.reverse_append, List.takeWhile_append_dropWhile, List.reverse_reverse]
      rw [← h1, List.head?_append]
      unfold jsTrim at hch
      rw [hch]
      rfl
    have := List.head?_dropWhile_not isJsSpace cs
    rw [hd] at this
    exact this
  · intro ch hch
    unfold jsTrim at hch
    rw [List.getLast?_reverse] at hch
    have := List.head?_dropWhile_not isJsSpace (cs.dropWhile isJsSpace).reverse
    rw [hch] at this
    exact this

theorem updateFirst_find (f : Profile → Profile) (sel : Profile → Bool) (l : List Profile)
    (p : Profile) (h : l.find? sel = some p) (hsel : sel (f p) = true) :
    (updateFirst f sel l).find? sel = some (f p) := by
  induction l with
  | nil => simp at h
  | cons a t ih =>
    unfold updateFirst
    by_cases ha : sel a = true
    · have hap : a = p := by simpa [List.find?_cons, ha] using h
      subst hap
      simp [ha, List.find?_cons, hsel]
    · have ht : t.find? sel = some p := by simpa [List.find?_cons, ha] using h
      simp [ha, List.find?_cons, ih ht]

/-- C10 (amended): for an existing profile and a request that passes validation,
the stored profile after the upsert is the response; each of company, website,
location, bio, status and githubusername is the request's value when that is
supplied non-empty and the stored value otherwise; skills, when supplied
non-empty, is the list of the comma-separated pieces of the string, each trimmed
of surrounding whitespace, in order, and the stored list otherwise; the social
object is replaced as a whole by the non-empty social links of the request; id,
owner, experience and education stay. -/
theorem upsert_existing_merge (isOid : String → Bool) (newId uid : String)
    (b : ProfileBody) (db : Store) (p : Profile)
    (hp : Profile.findOne isOid db uid = Except.ok (some p))
    (hstatus : b.status ≠ none) (hskills : b.skills ≠ none) :
    ∃ p1,
      run (upsertProfile isOid newId uid b) db =
        { db := (Profile.findOneAndUpdate db uid (buildProfileFields uid b)).1
          wire := [{ status := 200, body := Body.profile p1 none }]
          uncaught := none } ∧
      Profile.findOne isOid (run (upsertProfile isOid newId uid b) db).db uid
        = Except.ok (some p1) ∧
      p1.company = (if truthy b.company then b.company else p.company) ∧
      p1.website = (if truthy b.website then b.website else p.website) ∧
      p1.location = (if truthy b.location then b.location else p.location) ∧
      p1.bio = (if truthy b.bio then b.bio else p.bio) ∧
      p1.status = (if truthy b.status then b.status else p.status) ∧
      p1.githubusername =
        (if truthy b.githubusername then b.githubusername else p.githubusername) ∧
      (∀ s, b.skills = some s → s ≠ "" →
        ∃ pieces, IsCommaSplit pieces s.data ∧
          p1.skills.length = pieces.length ∧
          ∀ i (hi : i < pieces.length) (hj : i < p1.skills.length),
            IsTrimOf (p1.skills.get ⟨i, hj⟩).data (pieces.get ⟨i, hi⟩)) ∧
      (b.skills = some "" → p1.skills = p.skills) ∧
      p1.social =
        { youtube := if truthy b.youtube then b.youtube else none
          twitter := if truthy b.twitter then b.twitter else none
          facebook := if truthy b.facebook then b.facebook else none
          linkedin := if truthy b.linkedin then b.linkedin else none
          instagram := if truthy b.instagram then b.instagram else none } ∧
      p1.id = p.id ∧ p1.user = uid ∧ p1.experience = p.experience ∧
      p1.education = p.education := by
  have hOid : isOid uid = true := by
    unfold Profile.findOne at hp
    by_cases ho : isOid uid = true
    · exact ho
    · simp [ho] at hp
  have hfind : db.profiles.find? (fun q => q.user == uid) = some p := by
    simpa [Profile.findOne, hOid] using hp
  have hset : ∀ stored v : Option String,
      setKey stored (pick v) = if truthy v then v else stored := by
    intro stored v
    cases v with
    | none => simp [setKey, pick, truthy]
    | some s => by_cases h : s = "" <;> simp [setKey, pick, truthy, h]
  refine ⟨applySet p (buildProfileFields uid b), ?_, ?_, ?_, ?_, ?_, ?_, ?_, ?_, ?_, ?_, ?_,
    rfl, rfl, rfl, rfl⟩
  · simp [run, upsertProfile, hstatus, hskills, upsertProfileTry, hp, Profile.findOneAndUpdate, hfind,
      Step.catchWith, send]
  · have hupd := updateFirst_find (fun q => applySet q (buildProfileFields uid b))
      (fun q => q.user == uid) db.profiles p hfind (by simp [applySet, buildProfileFields])
    simp [run, upsertProfile, hstatus, hskills, upsertProfileTry, hp, Profile.findOneAndUpdate, hfind,
      Step.catchWith, send, Profile.findOne, hOid, hupd]
  · exact hset _ _
  · exact hset _ _
  · exact hset _ _
  · exact hset _ _
  · exact hset _ _
  · exact hset _ _
  · intro s hs hne
    refine ⟨splitComma s.data, splitComma_isCommaSplit s.data, ?_, ?_⟩
    · simp [applySet, buildProfileFields, hs, truthy, hne, parseSkills]
    · intro i hi hj
      have hsk : (applySet p (buildProfileFields uid b)).skills =
          (splitComma s.data).map (fun piece => String.mk (jsTrim piece)) := by
        simp [applySet, buildProfileFields, hs, truthy, hne, parseSkills]
      have hget : ((applySet p (buildProfileFields uid b)).skills.get ⟨i, hj⟩) =
          String.mk (jsTrim ((splitComma s.data).get ⟨i, hi⟩)) := by
        simp [hsk]
      rw [hget]
      exact jsTrim_isTrimOf _
  · intro hs
    simp [applySet, buildProfileFields, hs, truthy]
  · simp [applySet, buildProfileFields, pick]

/-! ## Evaluations at concrete requests -/

/-- C1: Bob, who does not own Alice's post, requests its deletion.  The handler
writes 400 'User not authorized' and goes on to remove the post, whereas the
comment-deletion handler on the same post and caller returns right after the
same response and leaves the store as it was. -/
theorem deletePost_non_owner_removes_post :
    alicePost.user ≠ bobId ∧
    Post.findById hex24 sampleStore postId1 = Except.ok (some alicePost) ∧
    run (deletePost hex24 bobId postId1) sampleStore =
      { db := { sampleStore with posts := [] }, wire := [notAuthorized],
        uncaught := some Exn.headersSent } ∧
    run (deleteComment hex24 bobId postId1 commentId1) sampleStore =
      { db := sampleStore, wire := [notAuthorized], uncaught := none } := by
  refine ⟨by decide, rfl, by decide, by decide⟩

/-- C3 (counterexample): Bob has already liked the post; his like is rejected,
the unlike that follows removes his entry, and the likes are not what they were
before the like. -/
theorem like_unlike_differs_when_already_liked :
    sampleStore.posts = [alicePost] ∧ alicePost.likes = [{ user := bobId }] ∧
    (run (like hex24 bobId postId1) sampleStore).wire = [alreadyLiked] ∧
    (run (unlike hex24 bobId postId1) (run (like hex24 bobId postId1) sampleStore).db).db.posts
      = [alicePostUnliked] ∧
    alicePostUnliked.likes = [] ∧ alicePostUnliked.likes ≠ alicePost.likes := by
  refine ⟨rfl, rfl, by decide, by decide, rfl, by decide⟩

/-- C9 (counterexample): the profile lookup answers a malformed user id, and a
well-formed id without a profile, with status 400, not 404. -/
theorem getProfileByUser_not_found_is_400 :
    hex24 "not-an-id" = false ∧
    (run (getProfileByUser hex24 "not-an-id") profileStore).wire =
      [{ status := 400, body := Body.msg "Profile not found" }] ∧
    hex24 bobId = true ∧
    (run (getProfileByUser hex24 bobId) profileStore).wire =
      [{ status := 400, body := Body.msg "Profile not found" }] := by
  refine ⟨by decide, by decide, by decide, by decide⟩

/-- C10 (counterexample): Alice's stored profile has a company and a twitter link; she sends an
update with status, skills and a youtube link only.  Company keeps its stored
value, status is overwritten, skills become the trimmed pieces in order, but the
stored twitter link, which the request did not supply, is gone. -/
theorem upsert_drops_unsupplied_social :
    aliceProfile.social.twitter = some "tw" ∧ youtubeOnlyBody.twitter = none ∧
    (run (upsertProfile hex24 "64b0000000000000000000f2" aliceId youtubeOnlyBody)
        profileStore).db.profiles =
      [{ aliceProfile with
          status := some "senior", skills := ["x", "y"],
          social :=
            { youtube := some "yt", twitter := none, facebook := none, linkedin := none,
              instagram := none } }] ∧
    (run (upsertProfile hex24 "64b0000000000000000000f2" aliceId youtubeOnlyBody)
        profileStore).db.profiles.map (fun p => (p.company, p.social.twitter)) =
      [(some "Acme", none)] := by
  refine ⟨rfl, rfl, by decide, by decide⟩

/-- C5 (counterexample): the header is present with an empty value, which the
verifier rejects; the guard answers 401 'No token,auth denied', not
401 'Token is not valid', and does not run the verifier. -/
theorem auth_empty_header_no_token :
    (some "" : Option String) ≠ none ∧ sampleVerify "" = none ∧
    auth sampleVerify (some "") =
      { wire := [noToken], verifierCalls := [], reqUser := none, nextCalled := false } ∧
    noToken ≠ tokenNotValid := by
  refine ⟨by decide, by decide, by decide, by decide⟩

/-- C8 (counterexample): Carol holds a valid token but her user record is gone.
Her comment on Alice's existing post is answered 400 'server error' and the
comments of the post stay as they were. -/
theorem addComment_without_user_record :
    Post.findById hex24 sampleStore postId1 = Except.ok (some alicePost) ∧
    User.findById hex24 sampleStore carolId = Except.ok none ∧
    run (commentRequest hex24 7 carolId postId1 (some "again")) sampleStore =
      { db := sampleStore, wire := [serverError], uncaught := none } := by
  refine ⟨rfl, rfl, by decide⟩

/-! ## Instances of the general statements -/

theorem like_twice_rejected_witness :
    (run (like hex24 bobId postId1) unlikedStore).wire =
        [{ status := 200, body := Body.likes [{ user := bobId }] }] ∧
    (run (like hex24 bobId postId1) (run (like hex24 bobId postId1) unlikedStore).db =
        { db := (run (like hex24 bobId postId1) unlikedStore).db, wire := [alreadyLiked],
          uncaught := none } ∧
      ∃ p1, Post.findById hex24 (run (like hex24 bobId postId1) unlikedStore).db postId1
          = Except.ok (some p1) ∧ p1.likes = [{ user := bobId }]) :=
  ⟨by decide, like_twice_rejected hex24 unlikedStore bobId postId1 [{ user := bobId }] (by decide)⟩

theorem like_unlike_roundtrip_witness :
    Post.findById hex24 unlikedStore postId1 = Except.ok (some alicePostUnliked) ∧
    (run (like hex24 bobId postId1) unlikedStore).wire =
        [{ status := 200, body := Body.likes [{ user := bobId }] }] ∧
    (run (unlike hex24 bobId postId1) (run (like hex24 bobId postId1) unlikedStore).db).wire =
        [{ status := 200, body := Body.likes alicePostUnliked.likes }] ∧
    Post.findById hex24
        (run (unlike hex24 bobId postId1) (run (like hex24 bobId postId1) unlikedStore).db).db
        postId1 = Except.ok (some alicePostUnliked) :=
  ⟨rfl, by decide,
    like_unlike_roundtrip hex24 unlikedStore bobId postId1 alicePostUnliked
      [{ user := bobId }] rfl (by decide)⟩

theorem unlike_absent_rejected_witness :
    Post.findById hex24 unlikedStore postId1 = Except.ok (some alicePostUnliked) ∧
    (∀ l ∈ alicePostUnliked.likes, l.user ≠ bobId) ∧
    run (unlike hex24 bobId postId1) unlikedStore =
      { db := unlikedStore, wire := [notLiked], uncaught := none } :=
  ⟨rfl, by decide,
    unlike_absent_rejected hex24 unlikedStore bobId postId1 alicePostUnliked rfl (by decide)⟩

theorem likes_nodup_preserved_witness :
    Post.findById hex24 sampleStore postId1 = Except.ok (some alicePost) ∧
    (alicePost.likes.map Like.user).Nodup ∧
    ((∃ p1, Post.findById hex24 (run (like hex24 aliceId postId1) sampleStore).db postId1
          = Except.ok (some p1) ∧ (p1.likes.map Like.user).Nodup) ∧
      (∃ p2, Post.findById hex24 (run (unlike hex24 aliceId postId1) sampleStore).db postId1
          = Except.ok (some p2) ∧ (p2.likes.map Like.user).Nodup)) :=
  ⟨rfl, by decide,
    likes_nodup_preserved hex24 sampleStore aliceId postId1 alicePost rfl (by decide)⟩

theorem deleteComment_unknown_id_noop_witness :
    Post.findById hex24 sampleStore postId1 = Except.ok (some alicePost) ∧
    hex24 aliceId = true ∧ alicePost.user = aliceId ∧
    (∀ cm ∈ alicePost.comments, cm.id ≠ commentId2) ∧
    ((run (deleteComment hex24 aliceId postId1 commentId2) sampleStore).wire =
        [{ status := 200, body := Body.comments alicePost.comments }] ∧
      (run (deleteComment hex24 aliceId postId1 commentId2) sampleStore).uncaught = none ∧
      Post.findById hex24 (run (deleteComment hex24 aliceId postId1 commentId2) sampleStore).db
        postId1 = Except.ok (some alicePost)) :=
  ⟨rfl, by decide, rfl, by decide,
    deleteComment_unknown_id_noop hex24 sampleStore aliceId postId1 commentId2 alicePost rfl
      (by decide) rfl (by decide)⟩

theorem addComment_prepends_witness :
    Post.findById hex24 sampleStore postId1 = Except.ok (some alicePost) ∧
    User.findById hex24 sampleStore bobId = Except.ok (some bob) ∧
    ∃ p1 nc,
      run (commentRequest hex24 7 bobId postId1 (some "again")) sampleStore =
        { db := Post.save sampleStore p1
          wire := [{ status := 200, body := Body.comments p1.comments }]
          uncaught := none } ∧
      Post.findById hex24
          (run (commentRequest hex24 7 bobId postId1 (some "again")) sampleStore).db postId1
        = Except.ok (some p1) ∧
      nc = { id := genEntryId (alicePost.comments.map Comment.id), user := bobId,
             text := "again", name := bob.name, avatar := bob.avatar, date := 7 } ∧
      p1 = { alicePost with comments := nc :: alicePost.comments } ∧
      p1.comments[0]? = some nc ∧
      (∀ cm ∈ alicePost.comments, nc.id ≠ cm.id) :=
  ⟨rfl, rfl,
    addComment_prepends hex24 7 sampleStore bobId postId1 "again" alicePost bob rfl rfl⟩

theorem lookup_failure_responses_witness :
    (hex24 "not-an-id" = false ∨
      Post.findById hex24 sampleStore "not-an-id" = Except.ok none) ∧
    (hex24 bobId = false ∨ Profile.findOne hex24 sampleStore bobId = Except.ok none) ∧
    (run (getPost hex24 "not-an-id") sampleStore).wire = [postNotFound] ∧
    run (getProfileByUser hex24 bobId) sampleStore =
      { db := sampleStore, wire := [profileNotFound], uncaught := none } :=
  ⟨Or.inl (by decide), Or.inr rfl,
    (lookup_failure_responses hex24 sampleStore bobId "not-an-id" commentId1 commentId2
      "text" bobId 7 (Or.inl (by decide)) (Or.inr rfl)).1.1,
    (lookup_failure_responses hex24 sampleStore bobId "not-an-id" commentId1 commentId2
      "text" bobId 7 (Or.inl (by decide)) (Or.inr rfl)).2.2.2.2.2.2⟩

theorem upsert_existing_merge_witness :
    Profile.findOne hex24 profileStore aliceId = Except.ok (some aliceProfile) ∧
    youtubeOnlyBody.status ≠ none ∧ youtubeOnlyBody.skills ≠ none ∧
    ∃ p1,
      Profile.findOne hex24
          (run (upsertProfile hex24 "64b0000000000000000000f2" aliceId youtubeOnlyBody)
            profileStore).db aliceId = Except.ok (some p1) ∧
      p1.company = some "Acme" ∧ p1.status = some "senior" := by
  obtain ⟨p1, _, h2, h3, _, _, _, h7, _⟩ :=
    upsert_existing_merge hex24 "64b0000000000000000000f2" aliceId youtubeOnlyBody
      profileStore aliceProfile rfl (by decide) (by decide)
  exact ⟨rfl, by decide, by decide, p1, h2, h3, h7⟩

theorem auth_guard_witness :
    auth sampleVerify (some "good") =
      { wire := [], verifierCalls := ["good"], reqUser := some { id := aliceId },
        nextCalled := true } ∧
    auth sampleVerify (some "bad") =
      { wire := [tokenNotValid], verifierCalls := ["bad"], reqUser := none,
        nextCalled := false } ∧
    auth sampleVerify none =
      { wire := [noToken], verifierCalls := [], reqUser := none, nextCalled := false } :=
  ⟨(auth_guard sampleVerify (some "good")).1 "good" _ rfl (by decide) rfl,
    (auth_guard sampleVerify (some "bad")).2.1 "bad" rfl (by decide) (by decide),
    (auth_guard sampleVerify none).2.2.1 (Or.inl rfl)⟩

end DevConnector
